import Mathlib

/-!
Shallow embedding of `src/resen/Resen.py` (the `Resen` bucket manager).

Conventions of the embedding:
* A bucket record mirrors the JSON dictionary built by `create_bucket`:
  `params['bucket']['name']` and the `params['docker']` sub-dictionary.
  The `image_id` and `pull_image` keys are *absent* on a freshly created
  bucket (only `set_image` / `import_bucket` create them), so they are
  modelled as `Option (Option String)` / `Option String` where the outer
  `none` means "key absent" — a lookup of an absent key is a `KeyError`
  in the host language.
* Python exceptions are modelled by the `Err` type; an operation returns
  the post-state registry together with `Option Err` (the raised
  exception, if any).  In every operation embedded here the source
  raises before mutating except where noted, so an error result carries
  the registry exactly as the source leaves it.
* External effects (the Docker adapter, the OS port probe, the local
  filesystem, SELinux detection, randomness, command output) are
  parameters: a `DockerHelper` record of functions, an `Env` record,
  and explicit response values for each `execute_command` call.
-/

namespace ResenSpec

/-- Python exception classes raised by the source, by class and message.
`nameError` models evaluating an undefined variable name;
`indexError` models an out-of-range list subscript;
`keyError` models a missing dictionary key;
`hang` models the source looping forever (the unbounded `while True`
in `get_port` when no free port exists). -/
inductive Err where
  | runtimeError (msg : String)
  | valueError (msg : String)
  | fileExistsError (msg : String)
  | fileNotFoundError (msg : String)
  | keyError (key : String)
  | nameError (nm : String)
  | indexError (msg : String)
  | hang
deriving DecidableEq, Repr

/-- The `params['docker']['jupyter']` sub-dictionary. -/
structure JupyterInfo where
  token : Option String
  port : Option Nat
deriving DecidableEq, Repr

/-- The `params['docker']` sub-dictionary of a bucket record.
`port` entries are the `[local, container, tcp]` lists appended by
`add_port` (either endpoint may be Python `None`); `storage` entries are
the `[local, container, permissions]` lists appended by `add_storage`. -/
structure DockerInfo where
  image : Option String
  image_id? : Option (Option String)
  pull_image? : Option String
  container : Option String
  port : List (Option Nat × Option Nat × Bool)
  storage : List (String × String × String)
  status : Option String
  jupyter : JupyterInfo
deriving DecidableEq, Repr

/-- A bucket record: `params['bucket']['name']` plus `params['docker']`. -/
structure Bucket where
  name : String
  docker : DockerInfo
deriving DecidableEq, Repr

/-- One entry of the hardcoded `valid_cores` list. -/
structure Core where
  version : String
  repo : String
  org : String
  image_id : String
  repodigest : String
deriving DecidableEq, Repr

/-- The hardcoded list returned by `__get_valid_cores`. -/
def valid_cores_default : List Core :=
  [ { version := "2019.1.0rc2", repo := "resen-core", org := "earthcubeingeo",
      image_id := "sha256:8b4750aa5186bdcf69a50fa10b0fd24a7c2293ef6135a9fdc594e0362443c99c",
      repodigest := "sha256:2fe3436297c23a0d5393c8dae8661c40fc73140e602bd196af3be87a5e215bc2" },
    { version := "latest", repo := "resen-lite", org := "earthcubeingeo",
      image_id := "sha256:134707a783d88358bcf4a850cbf602134a26dd6381a41b3af9960b8298f8caf6",
      repodigest := "" } ]

/-- Host-environment facts probed by the source at runtime:
`selinux` is `__detect_selinux`, `isDir` is `Path(local).is_dir()`,
`osBusy p` is `socket.connect_ex(('localhost', p)) == 0`. -/
structure Env where
  selinux : Bool
  isDir : String → Bool
  osBusy : Nat → Bool

/-- The external container-runtime adapter (`self.dockerhelper`):
each field is one primitive the manager invokes. -/
structure DockerHelper where
  create_container : Bucket → Option String × Option String
  start_container : Bucket → Option String
  remove_container : Bucket → Bool
  get_container_status : Bucket → Option String

/- ---------------------------------------------------------------- -/
/- Path arithmetic used by the mount whitelist check.
`pathlib.PurePosixPath` drops empty components and `.` components and
keeps the anchor; `p == child` and `p in child.parents` compare the
anchor plus the component list. -/

/-- Splitting a character list at a separator (the semantics of
splitting a string on a one-character separator). -/
def splitOnChar (sep : Char) : List Char → List (List Char)
  | [] => [[]]
  | c :: rest =>
    if c == sep then [] :: splitOnChar sep rest
    else match splitOnChar sep rest with
      | [] => [[c]]
      | h :: t => (c :: h) :: t

/-- Splitting a string on a one-character separator. -/
def splitChar (sep : Char) (s : String) : List String :=
  (splitOnChar sep s.toList).map (fun l => String.mk l)

/-- Components of a POSIX path as `pathlib` normalizes them:
split on `/`, dropping empty components and single dots. -/
def pathParts (s : String) : List String :=
  (splitChar '/' s).filter (fun c => c != "" && c != ".")

/-- Whether the path is absolute (has the `/` anchor). -/
def pathIsAbs (s : String) : Bool :=
  match s.toList with
  | [] => false
  | c :: _ => c == '/'

/-- Equality of `pathlib` paths: same anchor, same components. -/
def pathEq (a b : String) : Bool :=
  pathIsAbs a == pathIsAbs b && pathParts a == pathParts b

/-- Membership `p in (Path c).parents`: same anchor and the components
of `p` are a strict prefix of the components of `c`. -/
def pathInParents (p c : String) : Bool :=
  pathIsAbs p == pathIsAbs c
    && (pathParts p).isPrefixOf (pathParts c)
    && pathParts p != pathParts c

/-- The fixed `self.storage_whitelist`. -/
def storage_whitelist : List String := ["/home/jovyan/mount"]

/-- The whitelist loop of `add_storage`: valid iff some whitelisted
location equals the container path or is one of its parents. -/
def container_path_valid (whitelist : List String) (container : String) : Bool :=
  whitelist.any (fun loc => pathEq loc container || pathInParents loc container)

/- Spec-side path predicates, written from the specification words
"equal to, or a filesystem descendant of" / "a sibling or an ancestor",
for comparison with the source-side check above. -/

/-- Spec wording: `c` is a filesystem descendant of prefix `p`. -/
def descendantOf (c p : String) : Bool := pathInParents p c

/-- Spec wording: `c` is an ancestor of prefix `p`. -/
def ancestorOf (c p : String) : Bool := pathInParents c p

/-- Spec wording: `c` is a sibling of prefix `p` — distinct from `p` and
related to it by neither ancestry direction. -/
def siblingOf (c p : String) : Bool :=
  !pathEq p c && !pathInParents p c && !pathInParents c p

/- ---------------------------------------------------------------- -/
/- Registry primitives. -/

/-- The `self.bucket_names.index(bucket_name)` lookup of `get_bucket`:
first index whose name matches, together with the bucket stored there;
`none` models the `ValueError` branch. -/
def get_bucket? : List Bucket → String → Option (Nat × Bucket)
  | [], _ => none
  | b :: rest, nm =>
    if b.name == nm then some (0, b)
    else (get_bucket? rest nm).map (fun p => (p.1 + 1, p.2))

/-- The record assembled by `create_bucket`: every key of
`params['docker']` is present except `image_id` and `pull_image`. -/
def fresh_bucket (bucket_name : String) : Bucket :=
  { name := bucket_name,
    docker := { image := none, image_id? := none, pull_image? := none,
                container := none, port := [], storage := [],
                status := none, jupyter := { token := none, port := none } } }

/-- `Resen.create_bucket`. -/
def create_bucket (bs : List Bucket) (bucket_name : String) :
    List Bucket × Option Err :=
  if bs.any (fun b => b.name == bucket_name) then
    (bs, some (.valueError ("Bucket with name: " ++ bucket_name ++ " already exists!")))
  else
    (bs ++ [fresh_bucket bucket_name], none)

/-- `Resen.set_image`.  The guard for an already-created container
formats its message with the name `local`, which is not defined in
this function's scope, so the host language raises `NameError` there
instead of the intended `RuntimeError`. -/
def set_image (cores : List Core) (bs : List Bucket)
    (bucket_name docker_image : String) : List Bucket × Option Err :=
  match get_bucket? bs bucket_name with
  | none => (bs, some (.valueError ("Bucket with name: " ++ bucket_name ++ " does not exist!")))
  | some (i, b) =>
    if b.docker.status.isSome then
      (bs, some (.nameError "local"))
    else
      -- the source checks membership in the version list and then indexes
      -- the first match; a single first-match search is the same function
      match cores.find? (fun c => c.version == docker_image) with
      | none => (bs, some (.valueError ("Invalid resen-core version " ++ docker_image)))
      | some image =>
        (bs.set i { b with docker :=
            { b.docker with
                image := some image.version,
                image_id? := some (some image.image_id),
                pull_image? := some (image.org ++ "/" ++ image.repo ++ "@" ++ image.repodigest) } },
           none)

/-- `Resen.add_storage`. -/
def add_storage (env : Env) (bs : List Bucket)
    (bucket_name local_path container permissions : String) :
    List Bucket × Option Err :=
  match get_bucket? bs bucket_name with
  | none => (bs, some (.valueError ("Bucket with name: " ++ bucket_name ++ " does not exist!")))
  | some (i, b) =>
    if b.docker.status.isSome then
      (bs, some (.runtimeError ("Bucket has already been started, cannot add storage: " ++ local_path)))
    else if local_path ∈ b.docker.storage.map (fun x => x.1) then
      (bs, some (.fileExistsError "Local storage location already in use in bucket!"))
    else if container ∈ b.docker.storage.map (fun x => x.2.1) then
      (bs, some (.fileExistsError "Container storage location already in use in bucket!"))
    else if !(env.isDir local_path) then
      (bs, some (.fileNotFoundError "Cannot find local storage location!"))
    else if !(container_path_valid storage_whitelist container) then
      (bs, some (.valueError "Invalid mount location."))
    else if permissions ∉ ["r", "ro", "rw"] then
      (bs, some (.valueError "Invalid permissions. Valid options are r and rw."))
    else
      let permissions := if permissions ∈ ["r", "ro"] then "ro" else permissions
      let permissions := if env.selinux then permissions ++ ",Z" else permissions
      (bs.set i { b with docker :=
        { b.docker with storage := b.docker.storage ++ [(local_path, container, permissions)] } },
       none)

/-- `Resen.remove_storage` (its InvalidState message says "add storage",
copied verbatim from the source). -/
def remove_storage (bs : List Bucket) (bucket_name local_path : String) :
    List Bucket × Option Err :=
  match get_bucket? bs bucket_name with
  | none => (bs, some (.valueError ("Bucket with name: " ++ bucket_name ++ " does not exist!")))
  | some (i, b) =>
    if b.docker.status.isSome then
      (bs, some (.runtimeError ("Bucket has already been started, cannot add storage: " ++ local_path)))
    else
      match (b.docker.storage.map (fun x => x.1)).indexOf? local_path with
      | none => (bs, some (.fileNotFoundError ("Storage location " ++ local_path ++ " not associated with bucket " ++ bucket_name)))
      | some j =>
        (bs.set i { b with docker :=
          { b.docker with storage := b.docker.storage.eraseIdx j } }, none)

/-- Python truthiness of an optional port argument: `not local` is true
for `None` and for `0`. -/
def falsy : Option Nat → Bool
  | none => true
  | some n => n == 0

/-- Rendering of a port argument inside a `%s` format. -/
def optNatStr : Option Nat → String
  | none => "None"
  | some n => toString n

/-- The `assigned_ports` comprehension of `get_port`: the first element
of every port entry of every bucket in the registry. -/
def assigned_ports (bs : List Bucket) : List (Option Nat) :=
  (bs.map (fun b => b.docker.port.map (fun p => p.1))).flatten

/-- The scanning loop of `get_port`, made total by fuel: `none` means
the fuel ran out (the source would still be looping). -/
def get_port_from (osBusy : Nat → Bool) (assigned : List (Option Nat)) :
    Nat → Nat → Option Nat
  | 0, _ => none
  | fuel + 1, port =>
    if osBusy port = false ∧ some port ∉ assigned then some port
    else get_port_from osBusy assigned fuel (port + 1)

/-- `Resen.get_port`: scan upward from 9000. -/
def get_port (env : Env) (bs : List Bucket) (fuel : Nat) : Option Nat :=
  get_port_from env.osBusy (assigned_ports bs) fuel 9000

/-- `Resen.add_port`. -/
def add_port (env : Env) (fuel : Nat) (bs : List Bucket) (bucket_name : String)
    (local_port container_port : Option Nat) (tcp : Bool) :
    List Bucket × Option Err :=
  match get_bucket? bs bucket_name with
  | none => (bs, some (.valueError ("Bucket with name: " ++ bucket_name ++ " does not exist!")))
  | some (i, b) =>
    if b.docker.status.isSome then
      (bs, some (.runtimeError ("Bucket has already been started, cannot add port: " ++ optNatStr local_port)))
    else if falsy local_port && falsy container_port then
      match get_port env bs fuel with
      | none => (bs, some .hang)
      | some p =>
        (bs.set i { b with docker :=
          { b.docker with port := b.docker.port ++ [(some p, some p, tcp)] } }, none)
    else
      if local_port ∈ b.docker.port.map (fun x => x.1) then
        (bs, some (.valueError "Local port location already in use in bucket!"))
      else if container_port ∈ b.docker.port.map (fun x => x.2.1) then
        (bs, some (.valueError "Container port location already in use in bucket!"))
      else
        (bs.set i { b with docker :=
          { b.docker with port := b.docker.port ++ [(local_port, container_port, tcp)] } }, none)

/-- `Resen.remove_port`. -/
def remove_port (bs : List Bucket) (bucket_name : String) (local_port : Option Nat) :
    List Bucket × Option Err :=
  match get_bucket? bs bucket_name with
  | none => (bs, some (.valueError ("Bucket with name: " ++ bucket_name ++ " does not exist!")))
  | some (i, b) =>
    if b.docker.status.isSome then
      (bs, some (.runtimeError ("Bucket has already been started, cannot remove port: " ++ optNatStr local_port)))
    else
      match (b.docker.port.map (fun x => x.1)).indexOf? local_port with
      | none => (bs, some (.valueError ("Port location " ++ optNatStr local_port ++ " not associated with bucket " ++ bucket_name)))
      | some j =>
        (bs.set i { b with docker :=
          { b.docker with port := b.docker.port.eraseIdx j } }, none)

/- ---------------------------------------------------------------- -/
/- Lifecycle operations. -/

/-- `Resen.update_bucket_statuses`: overwrite the cached status of
every bucket that has a container with the adapter's answer. -/
def update_bucket_statuses (dh : DockerHelper) (bs : List Bucket) : List Bucket :=
  bs.map (fun b =>
    if b.docker.container.isNone then b
    else { b with docker := { b.docker with status := dh.get_container_status b } })

/-- `Resen.remove_bucket`.  Note the source calls the adapter's
`remove_container` and discards its result: the container reference and
status are nulled and the record is popped no matter what the adapter
reported. -/
def remove_bucket (dh : DockerHelper) (bs : List Bucket) (bucket_name : String) :
    List Bucket × Option Err :=
  let bs0 := update_bucket_statuses dh bs
  match get_bucket? bs0 bucket_name with
  | none => (bs0, some (.valueError ("Bucket with name: " ++ bucket_name ++ " does not exist!")))
  | some (i, b) =>
    if b.docker.status == some "running" then
      (bs0, some (.runtimeError ("ERROR: Bucket " ++ b.name ++ " is running, cannot remove.")))
    else
      let bs1 :=
        if (b.docker.status == some "created" || b.docker.status == some "exited")
            && b.docker.container.isSome then
          -- the adapter is invoked but its Boolean result is ignored
          let _ := dh.remove_container b
          bs0.set i { b with docker := { b.docker with status := none, container := none } }
        else bs0
      match get_bucket? bs1 bucket_name with
      | none => (bs1, some (.valueError ("Bucket with name: " ++ bucket_name ++ " does not exist!")))
      | some (j, _) => (bs1.eraseIdx j, none)

/-- `Resen.start_bucket`.  The image check reads
`bucket['docker']['image_id']`, a key `create_bucket` never creates, so
on a fresh bucket the lookup itself raises `KeyError` before the
intended missing-image `RuntimeError` can fire. -/
def start_bucket (dh : DockerHelper) (bs : List Bucket) (bucket_name : String) :
    List Bucket × Option Err :=
  match get_bucket? bs bucket_name with
  | none => (bs, some (.valueError ("Bucket with name: " ++ bucket_name ++ " does not exist!")))
  | some (i, b) =>
    if b.docker.status == some "running" then
      (bs, none)
    else
      match b.docker.image_id? with
      | none => (bs, some (.keyError "image_id"))
      | some iid =>
        if iid.isNone then
          (bs, some (.runtimeError "Bucket does not have an image assigned to it."))
        else
          let bs1 :=
            if b.docker.container.isNone then
              let cs := dh.create_container b
              bs.set i { b with docker :=
                { b.docker with container := cs.1, status := cs.2 } }
            else bs
          let bs2 := update_bucket_statuses dh bs1
          match get_bucket? bs2 bucket_name with
          | none => (bs2, some (.valueError ("Bucket with name: " ++ bucket_name ++ " does not exist!")))
          | some (j, b2) =>
            let st := dh.start_container b2
            let bs3 := bs2.set j { b2 with docker := { b2.docker with status := st } }
            if st != some "running" then
              (bs3, some (.runtimeError ("Failed to start bucket " ++ b2.name)))
            else (bs3, none)

/- ---------------------------------------------------------------- -/
/- Command execution and the jupyter session supervisor.
Each call to the adapter's `execute_command` is supplied its response
`(exit_code_or_none, output)` explicitly. -/

/-- `Resen.execute_command`, with the adapter's response for this one
call passed in as `resp`. -/
def execute_command_r (dh : DockerHelper) (resp : Option Int × String)
    (bs : List Bucket) (bucket_name command : String) (detach : Bool) :
    List Bucket × Except Err (Option Int × String) :=
  let bs0 := update_bucket_statuses dh bs
  match get_bucket? bs0 bucket_name with
  | none => (bs0, .error (.valueError ("Bucket with name: " ++ bucket_name ++ " does not exist!")))
  | some (_, b) =>
    if b.docker.status != some "running" then
      (bs0, .error (.runtimeError ("Bucket " ++ b.name ++ " is not running!")))
    else
      if (detach && resp.1.isSome) || (!detach && resp.1 != some 0) then
        (bs0, .error (.runtimeError ("Failed to execute command " ++ command)))
      else (bs0, .ok resp)

/-- Substring test on strings, via character lists. -/
def strContains (s pat : String) : Bool :=
  s.toList.tails.any (fun t => pat.toList.isPrefixOf t)

/-- The line signature `get_jupyter_pid` scans for. -/
def jupyterLineMatches (line : String) : Bool :=
  (strContains line "jupyter-lab" || strContains line "jupyter lab")
    && strContains line "--no-browser --ip 0.0.0.0"

/-- The parsing loop of `get_jupyter_pid` over the `ps -ef` output:
first matching line, second whitespace-separated field.  A matching
line with fewer than two fields would raise `IndexError`. -/
def scan_pid (lines : List String) : Except Err (Option String) :=
  match lines.find? jupyterLineMatches with
  | none => .ok none
  | some line =>
    match ((splitChar ' ' line).filter (fun x => x != "")).get? 1 with
    | none => .error (.indexError "list index out of range")
    | some pid => .ok (some pid)

/-- `Resen.get_jupyter_pid`, with the `ps -ef` response supplied. -/
def get_jupyter_pid_r (dh : DockerHelper) (resp : Option Int × String)
    (bs : List Bucket) (bucket_name : String) :
    List Bucket × Except Err (Option String) :=
  match execute_command_r dh resp bs bucket_name "ps -ef" false with
  | (bs0, .error e) => (bs0, .error e)
  | (bs0, .ok r) => (bs0, scan_pid (splitChar '\n' r.2))

/-- Hex digit character for a value below 16 (`%x` formatting). -/
def hexChar (n : Nat) : Char :=
  if n < 10 then Char.ofNat (48 + n) else Char.ofNat (87 + n)

/-- Hex digit string of a natural number, most significant first
(`%x` formatting; `toHex 0 = "0"`). -/
def toHex (n : Nat) : List Char :=
  if _h : n < 16 then [hexChar n]
  else toHex (n / 16) ++ [hexChar (n % 16)]
decreasing_by
  exact Nat.div_lt_self (by omega) (by omega)

/-- The token rendering `'%048x' % rand`: hex digits left-padded with
zeros to width 48. -/
def tokenHex (rand : Nat) : String :=
  let ds := toHex rand
  String.mk (List.replicate (48 - ds.length) '0' ++ ds)

/-- Whether a character is a lowercase hexadecimal digit. -/
def isHexDigit (c : Char) : Bool :=
  "0123456789abcdef".toList.contains c

/-- The jupyter launch command built by `start_jupyter` (the shell
wrapping is irrelevant to the embedding; the port and token are the
interpolated values). -/
def mkJupyterCommand (container_port : Option Nat) (token : String) : String :=
  "jupyter lab --no-browser --ip 0.0.0.0 --port " ++ optNatStr container_port
    ++ " --NotebookApp.token=" ++ token

/-- `Resen.start_jupyter`.  `rand` is the value of
`random.randrange(16**48)`; `ps1`, `srun` and `ps2` are the adapter
responses to the three `execute_command` calls (the first pid probe,
the detached launch, the second pid probe).  The third component of the
result is the access descriptor `(port, token)` printed in the URL,
`none` when an exception aborts the call. -/
def start_jupyter (dh : DockerHelper) (rand : Nat)
    (ps1 srun ps2 : Option Int × String)
    (bs : List Bucket) (bucket_name : String)
    (local_port container_port : Option Nat) :
    List Bucket × Option Err × Option (Option Nat × Option String) :=
  match get_bucket? bs bucket_name with
  | none => (bs, some (.valueError ("Bucket with name: " ++ bucket_name ++ " does not exist!")), none)
  | some (i, b) =>
    match get_jupyter_pid_r dh ps1 bs bucket_name with
    | (bs1, .error e) => (bs1, some e, none)
    | (bs1, .ok (some _)) =>
      -- server already running: report the recorded port and token
      let b1 := (bs1.get? i).getD b
      (bs1, none, some (b1.docker.jupyter.port, b1.docker.jupyter.token))
    | (bs1, .ok none) =>
      let b1 := (bs1.get? i).getD b
      let chosen : Except Err (Option Nat × Option Nat) :=
        if falsy local_port && falsy container_port then
          match b1.docker.port.get? 0 with
          | none => .error (.indexError "list index out of range")
          | some entry => .ok (entry.1, entry.2.1)
        else .ok (local_port, container_port)
      match chosen with
      | .error e => (bs1, some e, none)
      | .ok (lp, cp) =>
        let token := tokenHex rand
        match execute_command_r dh srun bs1 bucket_name (mkJupyterCommand cp token) true with
        | (bs2, .error e) => (bs2, some e, none)
        | (bs2, .ok _) =>
          let bs3 := update_bucket_statuses dh bs2
          match get_jupyter_pid_r dh ps2 bs3 bucket_name with
          | (bs4, .error e) => (bs4, some e, none)
          | (bs4, .ok none) => (bs4, some (.runtimeError "Failed to start jupyter server!"), none)
          | (bs4, .ok (some _)) =>
            match get_bucket? bs4 bucket_name with
            | none => (bs4, some (.valueError ("Bucket with name: " ++ bucket_name ++ " does not exist!")), none)
            | some (k, bk) =>
              let bs5 := bs4.set k { bk with docker :=
                { bk.docker with jupyter := { token := some token, port := lp } } }
              (bs5, none, some (lp, some token))

/- ---------------------------------------------------------------- -/
/- The export/import bundle protocol, modelled at the manifest level.
A `BundleMount` records one per-mount archive of the bundle: the file
name of its tgz, the name of the single top-level directory stored in
it (`tar.add(source_dir, arcname=source_dir.name)`), and the
container path and permission written into `manifest.json`. -/

/-- One mount archive of a bundle. -/
structure BundleMount where
  tgz : String
  arcRoot : String
  container_path : String
  perm : String
deriving DecidableEq, Repr

/-- A bundle: the image archive name plus the mount archives, in
manifest order. -/
structure Bundle where
  image : String
  mounts : List BundleMount
deriving DecidableEq, Repr

/-- `Path(p).name`: the last normalized component of the path. -/
def basename (p : String) : String :=
  (pathParts p).getLast?.getD ""

/-- `Resen.export_bucket`, at the manifest level: mounts whose local
path is listed in `exclude_mounts` are skipped; every other mount is
archived under `<basename>_mount.tgz` with top-level directory
`<basename>`, and its container path and permission are copied into
the manifest unchanged, preserving order. -/
def export_bucket (b : Bucket) (exclude_mounts : List String) : Bundle :=
  { image := b.name ++ "_image.tar",
    mounts := (b.docker.storage.filter (fun m => !(exclude_mounts.contains m.1))).map
      (fun m => { tgz := basename m.1 ++ "_mount.tgz",
                  arcRoot := basename m.1,
                  container_path := m.2.1,
                  perm := m.2.2 }) }

/-- The mount loop of `import_bucket`: each archive is extracted to
`bucket_dir/<arcRoot>` and registered via `add_storage` with the
manifest's container path and permission; an exception aborts the loop
leaving the earlier registrations in place. -/
def import_mounts (env : Env) (bucket_dir bucket_name : String) :
    List BundleMount → List Bucket → List Bucket × Option Err
  | [], bs => (bs, none)
  | m :: rest, bs =>
    match add_storage env bs bucket_name (bucket_dir ++ "/" ++ m.arcRoot)
        m.container_path m.perm with
    | (bs1, some e) => (bs1, some e)
    | (bs1, none) => import_mounts env bucket_dir bucket_name rest bs1

/-- `Resen.import_bucket`: create a fresh bucket, record the imported
image id (the adapter's `import_image` result) with empty `image` and
`pull_image` strings, then register every manifest mount.  No port is
added and no container is created. -/
def import_bucket (env : Env) (image_id : String) (bucket_dir : String)
    (bnd : Bundle) (bs : List Bucket) (bucket_name : String) :
    List Bucket × Option Err :=
  match create_bucket bs bucket_name with
  | (bs1, some e) => (bs1, some e)
  | (bs1, none) =>
    match get_bucket? bs1 bucket_name with
    | none => (bs1, some (.valueError ("Bucket with name: " ++ bucket_name ++ " does not exist!")))
    | some (i, b) =>
      let bs2 := bs1.set i { b with docker :=
        { b.docker with image := some "", image_id? := some (some image_id),
                        pull_image? := some "" } }
      import_mounts env bucket_dir bucket_name bnd.mounts bs2

/- ---------------------------------------------------------------- -/
/- Concrete fixtures used by witnesses and counterexamples. -/

/-- A host with no SELinux, every local path an existing directory, and
ports 9000 through 9002 reported busy by the OS probe. -/
def envW : Env :=
  { selinux := false, isDir := fun _ => true,
    osBusy := fun p => decide (9000 ≤ p ∧ p ≤ 9002) }

/-- A host with SELinux enforcing. -/
def envZ : Env :=
  { selinux := true, isDir := fun _ => true, osBusy := fun _ => false }

/-- An adapter whose `remove_container` reports failure and whose
status query returns the cached status unchanged. -/
def dhW : DockerHelper :=
  { create_container := fun _ => (none, none),
    start_container := fun _ => none,
    remove_container := fun _ => false,
    get_container_status := fun b => b.docker.status }

/-- A bucket whose container has been created. -/
def bktCreatedW : Bucket :=
  { name := "lab",
    docker := { image := none, image_id? := none, pull_image? := none,
                container := some "c123", port := [], storage := [],
                status := some "created",
                jupyter := { token := none, port := none } } }

/-- A not-yet-started bucket holding ports 9003 and 9004. -/
def bktPortsW : Bucket :=
  { name := "lab",
    docker := { image := none, image_id? := none, pull_image? := none,
                container := none,
                port := [(some 9003, some 9003, true), (some 9004, some 9004, true)],
                storage := [], status := none,
                jupyter := { token := none, port := none } } }

/-- A running bucket with an empty port list and no recorded session. -/
def bktRunW : Bucket :=
  { name := "lab",
    docker := { image := none, image_id? := none, pull_image? := none,
                container := some "c123", port := [], storage := [],
                status := some "running",
                jupyter := { token := none, port := none } } }

/-- A source bucket whose mount carries the SELinux relabel marker. -/
def srcZ : Bucket :=
  { name := "lab",
    docker := { image := none, image_id? := none, pull_image? := none,
                container := none, port := [],
                storage := [("/tmp/data", "/home/jovyan/mount/data", "ro,Z")],
                status := none,
                jupyter := { token := none, port := none } } }

/-- A source bucket with two plain mounts. -/
def srcGood : Bucket :=
  { name := "lab",
    docker := { image := none, image_id? := none, pull_image? := none,
                container := none, port := [],
                storage := [("/tmp/data", "/home/jovyan/mount/data", "ro"),
                            ("/tmp/stuff", "/home/jovyan/mount/stuff", "rw")],
                status := none,
                jupyter := { token := none, port := none } } }

/-- A sample `ps -ef` line in which the jupyter signature appears with
process id 42. -/
def psLineW : String := "jovyan 42 jupyter-lab --no-browser --ip 0.0.0.0"

/-- The `(container_path, permission)` projection of a bucket's
storage list, in order — the data the round-trip claim compares. -/
def storage_pairs (b : Bucket) : List (String × String) :=
  b.docker.storage.map (fun m => (m.2.1, m.2.2))

/-- The storage entry `import_bucket` registers for one bundle mount:
the extracted local path together with the manifest's container path
and permission. -/
def mount_entry (bucket_dir : String) (m : BundleMount) : String × String × String :=
  (bucket_dir ++ "/" ++ m.arcRoot, m.container_path, m.perm)

/-- The bucket a clean round trip produces: fresh name, imported image
id, no ports, no container, and each mount re-registered at its
extraction path with the original container path and permission. -/
def imported_bucket (image_id bucket_dir bucket_name : String) (b : Bucket) : Bucket :=
  { name := bucket_name,
    docker := { image := some "", image_id? := some (some image_id), pull_image? := some "",
                container := none, port := [],
                storage := b.docker.storage.map
                  (fun m => (bucket_dir ++ "/" ++ basename m.1, m.2.1, m.2.2)),
                status := none, jupyter := { token := none, port := none } } }

/-- The bucket `import_bucket` builds before registering mounts: a
fresh record carrying only the imported image id. -/
def import_base_bucket (image_id bucket_name : String) : Bucket :=
  { name := bucket_name,
    docker := { image := some "", image_id? := some (some image_id), pull_image? := some "",
                container := none, port := [], storage := [],
                status := none, jupyter := { token := none, port := none } } }

/-- The bucket record produced by a successful `set_image` with
catalogue entry `c`. -/
def set_image_result (b : Bucket) (c : Core) : Bucket :=
  { b with docker :=
    { b.docker with
        image := some c.version,
        image_id? := some (some c.image_id),
        pull_image? := some (c.org ++ "/" ++ c.repo ++ "@" ++ c.repodigest) } }

/- ---------------------------------------------------------------- -/
/- Helper lemmas about the registry lookup. -/

theorem get_bucket?_name {bs : List Bucket} {nm : String} {i : Nat} {b : Bucket}
    (h : get_bucket? bs nm = some (i, b)) : b.name = nm := by
  induction bs generalizing i with
  | nil => simp [get_bucket?] at h
  | cons hd tl ih =>
    by_cases hh : hd.name == nm
    · simp [get_bucket?, hh] at h
      obtain ⟨_, rfl⟩ := h
      simpa using hh
    · simp [get_bucket?, hh] at h
      obtain ⟨j, hj, rfl, rfl⟩ := h
      exact ih hj

theorem get_bucket?_getElem? {bs : List Bucket} {nm : String} {i : Nat} {b : Bucket}
    (h : get_bucket? bs nm = some (i, b)) : bs.get? i = some b := by
  induction bs generalizing i with
  | nil => simp [get_bucket?] at h
  | cons hd tl ih =>
    by_cases hh : hd.name == nm
    · simp [get_bucket?, hh] at h
      obtain ⟨rfl, rfl⟩ := h
      rfl
    · simp [get_bucket?, hh] at h
      obtain ⟨j, hj, rfl, rfl⟩ := h
      simpa using ih hj

theorem get_bucket?_set {bs : List Bucket} {nm : String} {i : Nat} {b b' : Bucket}
    (h : get_bucket? bs nm = some (i, b)) (hn : b'.name = b.name) :
    get_bucket? (bs.set i b') nm = some (i, b') := by
  induction bs generalizing i with
  | nil => simp [get_bucket?] at h
  | cons hd tl ih =>
    by_cases hh : hd.name == nm
    · simp [get_bucket?, hh] at h
      obtain ⟨rfl, rfl⟩ := h
      have : b'.name == nm := by
        rw [hn]; exact hh
      simp [List.set, get_bucket?, this]
    · simp [get_bucket?, hh] at h
      obtain ⟨j, hj, rfl, rfl⟩ := h
      simp [List.set, get_bucket?, hh, ih hj]

theorem update_bucket_statuses_id {dh : DockerHelper} (bs : List Bucket)
    (hg : ∀ x, dh.get_container_status x = x.docker.status) :
    update_bucket_statuses dh bs = bs := by
  induction bs with
  | nil => rfl
  | cons hd tl ih =>
    have hhd : (if hd.docker.container.isNone then hd
        else { hd with docker := { hd.docker with status := dh.get_container_status hd } }) = hd := by
      rw [hg]; split <;> rfl
    have hcons : update_bucket_statuses dh (hd :: tl)
        = (if hd.docker.container.isNone then hd
            else { hd with docker := { hd.docker with status := dh.get_container_status hd } })
          :: update_bucket_statuses dh tl := rfl
    rw [hcons, hhd, ih]

theorem names_update_bucket_statuses (dh : DockerHelper) (bs : List Bucket) :
    (update_bucket_statuses dh bs).map (fun x => x.name) = bs.map (fun x => x.name) := by
  induction bs with
  | nil => rfl
  | cons hd tl ih =>
    have hcons : update_bucket_statuses dh (hd :: tl)
        = (if hd.docker.container.isNone then hd
            else { hd with docker := { hd.docker with status := dh.get_container_status hd } })
          :: update_bucket_statuses dh tl := rfl
    rw [hcons, List.map_cons, ih, List.map_cons]
    congr 1
    split <;> rfl

theorem names_set {bs : List Bucket} {nm : String} {i : Nat} {b b' : Bucket}
    (h : get_bucket? bs nm = some (i, b)) (hn : b'.name = b.name) :
    (bs.set i b').map (fun x => x.name) = bs.map (fun x => x.name) := by
  induction bs generalizing i with
  | nil => simp [get_bucket?] at h
  | cons hd tl ih =>
    by_cases hh : hd.name == nm
    · simp [get_bucket?, hh] at h
      obtain ⟨rfl, rfl⟩ := h
      simp [List.set, hn]
    · simp [get_bucket?, hh] at h
      obtain ⟨j, hj, rfl, rfl⟩ := h
      simp [List.set, ih hj]

theorem erase_names {bs : List Bucket} {nm : String} {i : Nat} {b : Bucket}
    (h : get_bucket? bs nm = some (i, b))
    (hnd : (bs.map (fun x => x.name)).Nodup) :
    ∀ x ∈ bs.eraseIdx i, x.name ≠ nm := by
  induction bs generalizing i with
  | nil => simp [get_bucket?] at h
  | cons hd tl ih =>
    by_cases hh : hd.name == nm
    · simp [get_bucket?, hh] at h
      obtain ⟨rfl, rfl⟩ := h
      intro x hx hxn
      have hdnm : hd.name = nm := by simpa using hh
      simp only [List.map_cons, List.nodup_cons] at hnd
      exact hnd.1 (by
        rw [hdnm, ← hxn]
        exact List.mem_map_of_mem _ (by simpa using hx))
    · simp [get_bucket?, hh] at h
      obtain ⟨j, hj, rfl, rfl⟩ := h
      intro x hx
      simp only [List.eraseIdx_cons_succ, List.mem_cons] at hx
      rcases hx with rfl | hx
      · simpa using hh
      · simp only [List.map_cons, List.nodup_cons] at hnd
        exact ih hj hnd.2 x hx

theorem pathInParents_asymm {c w : String} (h : pathInParents c w = true) :
    pathInParents w c = false := by
  simp only [pathInParents, Bool.and_eq_true, bne_iff_ne, List.isPrefixOf_iff_prefix] at h
  obtain ⟨⟨habs, hpre⟩, hne⟩ := h
  by_contra hcon
  simp only [Bool.not_eq_false, pathInParents, Bool.and_eq_true, bne_iff_ne,
    List.isPrefixOf_iff_prefix] at hcon
  obtain ⟨⟨_, hpre2⟩, _⟩ := hcon
  exact hne (hpre.eq_of_length (le_antisymm hpre.length_le hpre2.length_le))

theorem pathEq_false_of_pathInParents {c w : String} (h : pathInParents c w = true) :
    pathEq w c = false := by
  simp only [pathInParents, Bool.and_eq_true, bne_iff_ne, List.isPrefixOf_iff_prefix] at h
  obtain ⟨⟨_, _⟩, hne⟩ := h
  by_contra hcon
  simp only [Bool.not_eq_false, pathEq, Bool.and_eq_true, beq_iff_eq] at hcon
  exact hne hcon.2.symm

theorem get_port_from_spec (osBusy : Nat → Bool) (assigned : List (Option Nat)) :
    ∀ fuel start p, get_port_from osBusy assigned fuel start = some p →
      osBusy p = false ∧ some p ∉ assigned ∧ start ≤ p ∧
      ∀ q, start ≤ q → q < p → ¬(osBusy q = false ∧ some q ∉ assigned) := by
  intro fuel
  induction fuel with
  | zero => intro start p h; simp [get_port_from] at h
  | succ fuel ih =>
    intro start p h
    by_cases hc : osBusy start = false ∧ some start ∉ assigned
    · rw [get_port_from, if_pos hc] at h
      obtain rfl : start = p := by simpa using h
      exact ⟨hc.1, hc.2, le_refl _, fun q h1 h2 => absurd h2 (by omega)⟩
    · rw [get_port_from, if_neg hc] at h
      obtain ⟨h1, h2, h3, h4⟩ := ih (start + 1) p h
      refine ⟨h1, h2, by omega, fun q hq1 hq2 => ?_⟩
      by_cases hq : q = start
      · subst hq; exact hc
      · exact h4 q (by omega) hq2

theorem get_port_from_unique {osBusy : Nat → Bool} {assigned : List (Option Nat)}
    {fuel1 fuel2 start p1 p2 : Nat}
    (h1 : get_port_from osBusy assigned fuel1 start = some p1)
    (h2 : get_port_from osBusy assigned fuel2 start = some p2) : p2 = p1 := by
  obtain ⟨a1, a2, a3, a4⟩ := get_port_from_spec osBusy assigned fuel1 start p1 h1
  obtain ⟨b1, b2, b3, b4⟩ := get_port_from_spec osBusy assigned fuel2 start p2 h2
  rcases lt_trichotomy p1 p2 with h | h | h
  · exact absurd ⟨a1, a2⟩ (b4 p1 a3 h)
  · omega
  · exact absurd ⟨b1, b2⟩ (a4 p2 b3 h)

theorem hexChar_hex (m : Nat) (h : m < 16) : isHexDigit (hexChar m) = true := by
  interval_cases m <;> decide

theorem toHex_length_le : ∀ k n, n < 16 ^ (k + 1) → (toHex n).length ≤ k + 1 := by
  intro k
  induction k with
  | zero =>
    intro n h
    rw [toHex.eq_def, dif_pos (by omega : n < 16)]
    simp
  | succ k ih =>
    intro n h
    by_cases hn : n < 16
    · rw [toHex.eq_def, dif_pos hn]
      simp
    · rw [toHex.eq_def, dif_neg hn]
      rw [List.length_append]
      have hdiv : n / 16 < 16 ^ (k + 1) := by
        rw [Nat.div_lt_iff_lt_mul (by norm_num : (0:Nat) < 16)]
        calc n < 16 ^ (k + 2) := h
          _ = 16 ^ (k + 1) * 16 := by ring
      have := ih (n / 16) hdiv
      simp only [List.length_cons, List.length_nil]
      omega

theorem toHex_all_hex : ∀ n, ∀ c ∈ toHex n, isHexDigit c = true := by
  intro n
  induction n using Nat.strong_induction_on with
  | _ n ih =>
    rw [toHex.eq_def]
    split
    · intro c hc
      simp only [List.mem_singleton] at hc
      subst hc
      exact hexChar_hex _ (by assumption)
    · intro c hc
      rw [List.mem_append] at hc
      rcases hc with hc | hc
      · exact ih (n / 16) (Nat.div_lt_self (by omega) (by omega)) c hc
      · simp only [List.mem_singleton] at hc
        subst hc
        exact hexChar_hex _ (Nat.mod_lt _ (by omega))

theorem tokenHex_length {rand : Nat} (h : rand < 16 ^ 48) :
    (tokenHex rand).length = 48 := by
  have hle : (toHex rand).length ≤ 48 := toHex_length_le 47 rand h
  simp only [tokenHex, String.length, String.mk, List.length_append,
    List.length_replicate]
  omega

theorem tokenHex_all_hex (rand : Nat) :
    ∀ c ∈ (tokenHex rand).toList, isHexDigit c = true := by
  intro c hc
  simp only [tokenHex, String.toList, String.data, String.mk, List.mem_append,
    List.mem_replicate] at hc
  rcases hc with hc | hc
  · rw [hc.2]; decide
  · exact toHex_all_hex rand c hc

theorem execute_command_r_running {dh : DockerHelper} {resp : Option Int × String}
    {bs : List Bucket} {bucket_name command : String} {detach : Bool}
    {i : Nat} {b : Bucket}
    (hg : ∀ x, dh.get_container_status x = x.docker.status)
    (hb : get_bucket? bs bucket_name = some (i, b))
    (hrun : b.docker.status = some "running") :
    execute_command_r dh resp bs bucket_name command detach
      = (bs, if (detach && resp.1.isSome) || (!detach && resp.1 != some 0)
             then .error (.runtimeError ("Failed to execute command " ++ command))
             else .ok resp) := by
  simp only [execute_command_r, update_bucket_statuses_id bs hg, hb]
  simp [hrun]
  split <;> rfl

theorem get_jupyter_pid_r_running {dh : DockerHelper} {out : String}
    {bs : List Bucket} {bucket_name : String} {i : Nat} {b : Bucket}
    (hg : ∀ x, dh.get_container_status x = x.docker.status)
    (hb : get_bucket? bs bucket_name = some (i, b))
    (hrun : b.docker.status = some "running") :
    get_jupyter_pid_r dh (some 0, out) bs bucket_name
      = (bs, scan_pid (splitChar '\n' out)) := by
  simp only [get_jupyter_pid_r, execute_command_r_running hg hb hrun]
  simp

theorem str_append_left_cancel {s x y : String} (h : s ++ x = s ++ y) : x = y := by
  have hd : (s ++ x).data = (s ++ y).data := congrArg String.data h
  rw [String.data_append, String.data_append] at hd
  exact String.ext (List.append_cancel_left hd)

theorem export_bucket_mounts_no_exclusion (b : Bucket) :
    (export_bucket b []).mounts = b.docker.storage.map
      (fun m => { tgz := basename m.1 ++ "_mount.tgz", arcRoot := basename m.1,
                  container_path := m.2.1, perm := m.2.2 }) := by
  simp only [export_bucket]
  congr 1
  exact List.filter_eq_self.mpr (fun a _ => rfl)

theorem import_mounts_spec (env : Env) (bucket_dir bucket_name : String)
    (hsel : env.selinux = false) :
    ∀ (ms : List BundleMount) (B : Bucket),
    B.name = bucket_name →
    B.docker.status = none →
    (∀ m ∈ ms, m.perm = "ro" ∨ m.perm = "rw") →
    (∀ m ∈ ms, container_path_valid storage_whitelist m.container_path = true) →
    (∀ m ∈ ms, env.isDir (bucket_dir ++ "/" ++ m.arcRoot) = true) →
    (ms.map (fun m => m.arcRoot)).Nodup →
    (ms.map (fun m => m.container_path)).Nodup →
    (∀ m ∈ ms, (bucket_dir ++ "/" ++ m.arcRoot) ∉ B.docker.storage.map (fun x => x.1)) →
    (∀ m ∈ ms, m.container_path ∉ B.docker.storage.map (fun x => x.2.1)) →
    import_mounts env bucket_dir bucket_name ms [B]
      = ([{ B with docker :=
            { B.docker with storage := B.docker.storage ++ ms.map (mount_entry bucket_dir) } }],
         none) := by
  intro ms
  induction ms with
  | nil =>
    intro B _ _ _ _ _ _ _ _ _
    simp [import_mounts]
  | cons m rest ih =>
    intro B hname hstat hperm hwl hdir hnr hnc hnl hncl
    have hbB : get_bucket? [B] bucket_name = some (0, B) := by
      simp [get_bucket?, hname]
    set B' : Bucket := { B with docker := { B.docker with storage := B.docker.storage ++ [mount_entry bucket_dir m] } } with hB'
    have hadd : add_storage env [B] bucket_name (bucket_dir ++ "/" ++ m.arcRoot)
        m.container_path m.perm = ([B'], none) := by
      rcases hperm m (by simp) with h | h <;>
        simp [add_storage, hbB, hstat, hnl m (by simp), hncl m (by simp),
          hdir m (by simp), hwl m (by simp), hsel, hB', mount_entry, h]
    have hstep : import_mounts env bucket_dir bucket_name (m :: rest) [B]
        = import_mounts env bucket_dir bucket_name rest [B'] := by
      rw [import_mounts, hadd]
    rw [hstep]
    simp only [List.map_cons, List.nodup_cons] at hnr hnc
    have hname' : B'.name = bucket_name := hname
    have hstat' : B'.docker.status = none := hstat
    have hloc' : ∀ m' ∈ rest,
        (bucket_dir ++ "/" ++ m'.arcRoot) ∉ B'.docker.storage.map (fun x => x.1) := by
      intro m' hm'
      rw [hB']
      simp only [List.map_append, List.mem_append, List.map_cons, List.map_nil,
        List.mem_singleton, mount_entry]
      rintro (h | h)
      · exact hnl m' (by simp [hm']) h
      · refine hnr.1 ?_
        have harc : m'.arcRoot = m.arcRoot := str_append_left_cancel h
        rw [← harc]
        exact List.mem_map_of_mem _ hm'
    have hcon' : ∀ m' ∈ rest,
        m'.container_path ∉ B'.docker.storage.map (fun x => x.2.1) := by
      intro m' hm'
      rw [hB']
      simp only [List.map_append, List.mem_append, List.map_cons, List.map_nil,
        List.mem_singleton, mount_entry]
      rintro (h | h)
      · exact hncl m' (by simp [hm']) h
      · refine hnc.1 ?_
        rw [← h]
        exact List.mem_map_of_mem _ hm'
    have hrec := ih B' hname' hstat'
      (fun m' hm' => hperm m' (by simp [hm']))
      (fun m' hm' => hwl m' (by simp [hm']))
      (fun m' hm' => hdir m' (by simp [hm']))
      hnr.2 hnc.2 hloc' hcon'
    rw [hrec, hB']
    simp [List.append_assoc]

/- ---------------------------------------------------------------- -/
/- Claim theorems. -/

/-- C4: for every bucket whose container has been created (its status
has left Unset, i.e. is non-null), each of `add_storage`, `add_port`,
`remove_storage` and `remove_port` fails with the InvalidState signal
(the "Bucket has already been started" `RuntimeError`) and returns the
registry unchanged, so the bucket's ports and storage lists are
untouched. -/
theorem c4_bindings_frozen_after_creation
    (env : Env) (fuel : Nat) (bs : List Bucket) (bucket_name : String)
    (i : Nat) (b : Bucket) (lp c perm : String)
    (lo co : Option Nat) (tcp : Bool)
    (hb : get_bucket? bs bucket_name = some (i, b))
    (hst : b.docker.status.isSome = true) :
    add_storage env bs bucket_name lp c perm
      = (bs, some (.runtimeError ("Bucket has already been started, cannot add storage: " ++ lp)))
    ∧ add_port env fuel bs bucket_name lo co tcp
      = (bs, some (.runtimeError ("Bucket has already been started, cannot add port: " ++ optNatStr lo)))
    ∧ remove_storage bs bucket_name lp
      = (bs, some (.runtimeError ("Bucket has already been started, cannot add storage: " ++ lp)))
    ∧ remove_port bs bucket_name lo
      = (bs, some (.runtimeError ("Bucket has already been started, cannot remove port: " ++ optNatStr lo))) := by
  refine ⟨?_, ?_, ?_, ?_⟩ <;>
    simp [add_storage, add_port, remove_storage, remove_port, hb, hst]

/-- Witness for C4 at a concrete created bucket. -/
theorem c4_witness :
    add_storage envW [bktCreatedW] "lab" "/tmp/d" "/home/jovyan/mount/d" "rw"
      = ([bktCreatedW], some (.runtimeError "Bucket has already been started, cannot add storage: /tmp/d"))
    ∧ add_port envW 5 [bktCreatedW] "lab" (some 9000) (some 9000) true
      = ([bktCreatedW], some (.runtimeError "Bucket has already been started, cannot add port: 9000"))
    ∧ remove_storage [bktCreatedW] "lab" "/tmp/d"
      = ([bktCreatedW], some (.runtimeError "Bucket has already been started, cannot add storage: /tmp/d"))
    ∧ remove_port [bktCreatedW] "lab" (some 9000)
      = ([bktCreatedW], some (.runtimeError "Bucket has already been started, cannot remove port: 9000")) :=
  c4_bindings_frozen_after_creation envW 5 [bktCreatedW] "lab" 0 bktCreatedW
    "/tmp/d" "/home/jovyan/mount/d" "rw" (some 9000) (some 9000) true rfl rfl

/-- C9: calling `set_image` on a bucket whose container has already
been created takes the guard branch whose error message references the
undefined variable `local`, so the host language raises `NameError`
there — not the typed InvalidState `RuntimeError` the branch intended.
The registry is left unchanged. -/
theorem c9_set_image_raises_name_error
    (cores : List Core) (bs : List Bucket) (bucket_name docker_image : String)
    (i : Nat) (b : Bucket)
    (hb : get_bucket? bs bucket_name = some (i, b))
    (hst : b.docker.status.isSome = true) :
    set_image cores bs bucket_name docker_image = (bs, some (.nameError "local")) := by
  simp [set_image, hb, hst]

/-- Witness for C9 at a concrete created bucket. -/
theorem c9_witness :
    set_image valid_cores_default [bktCreatedW] "lab" "2019.1.0rc2"
      = ([bktCreatedW], some (.nameError "local")) :=
  c9_set_image_raises_name_error valid_cores_default [bktCreatedW] "lab"
    "2019.1.0rc2" 0 bktCreatedW rfl rfl

theorem set_image_success (cores : List Core) (bs : List Bucket)
    (bucket_name v : String) (i : Nat) (b : Bucket) (c : Core)
    (hb : get_bucket? bs bucket_name = some (i, b))
    (hst : b.docker.status = none)
    (h : cores.find? (fun x => x.version == v) = some c) :
    set_image cores bs bucket_name v = (bs.set i (set_image_result b c), none) := by
  simp [set_image, set_image_result, hb, hst, h]

/-- C5 (code bug exhibited): `start_bucket` on a bucket whose status is
already "running" is a no-op returning success, as the claim states;
but on a freshly created bucket (no `set_image` ever applied) the
image check `bucket['docker']['image_id']` raises `KeyError`, because
`create_bucket` never creates the `image_id` key — the intended
missing-image `RuntimeError` branch is unreachable there. -/
theorem c5_start_running_noop_and_fresh_key_error :
    start_bucket dhW [bktRunW] "lab" = ([bktRunW], none)
    ∧ start_bucket dhW (create_bucket [] "lab").1 "lab"
        = ((create_bucket [] "lab").1, some (.keyError "image_id")) :=
  ⟨rfl, rfl⟩

/-- C6 counterexample: the image descriptor can be set twice.  On a
fresh bucket, a first `set_image` succeeds and a second `set_image`
(while the status is still Unset) also succeeds, overwriting the
descriptor — refuting "set at most once". -/
theorem c6_counterexample_second_set_image_succeeds :
    (set_image valid_cores_default (create_bucket [] "lab").1 "lab" "2019.1.0rc2").2 = none
    ∧ (set_image valid_cores_default
        (set_image valid_cores_default (create_bucket [] "lab").1 "lab" "2019.1.0rc2").1
        "lab" "latest").2 = none
    ∧ (get_bucket? (set_image valid_cores_default
        (set_image valid_cores_default (create_bucket [] "lab").1 "lab" "2019.1.0rc2").1
        "lab" "latest").1 "lab").map (fun x => x.2.docker.image)
        = some (some "latest") :=
  ⟨rfl, rfl, rfl⟩

/-- C6 amended: while a bucket's container does not exist (status
null), `set_image` with a catalogued version always succeeds and
overwrites the image descriptor; in particular a second `set_image` on
the same bucket succeeds as well, recording the second version. -/
theorem c6_amended_set_image_overwrites
    (cores : List Core) (bs : List Bucket) (bucket_name v1 v2 : String)
    (i : Nat) (b : Bucket) (c1 c2 : Core)
    (hb : get_bucket? bs bucket_name = some (i, b))
    (hst : b.docker.status = none)
    (h1 : cores.find? (fun c => c.version == v1) = some c1)
    (h2 : cores.find? (fun c => c.version == v2) = some c2) :
    (set_image cores bs bucket_name v1).2 = none
    ∧ (set_image cores (set_image cores bs bucket_name v1).1 bucket_name v2).2 = none
    ∧ (get_bucket? (set_image cores (set_image cores bs bucket_name v1).1 bucket_name v2).1
        bucket_name).map (fun x => x.2.docker.image) = some (some c2.version) := by
  have hs1 := set_image_success cores bs bucket_name v1 i b c1 hb hst h1
  have hb1 : get_bucket? (bs.set i (set_image_result b c1)) bucket_name
      = some (i, set_image_result b c1) := get_bucket?_set hb rfl
  have hst1 : (set_image_result b c1).docker.status = none := hst
  have hs2 := set_image_success cores (bs.set i (set_image_result b c1)) bucket_name v2 i
    (set_image_result b c1) c2 hb1 hst1 h2
  have hb2 : get_bucket?
      ((bs.set i (set_image_result b c1)).set i (set_image_result (set_image_result b c1) c2))
      bucket_name = some (i, set_image_result (set_image_result b c1) c2) :=
    get_bucket?_set hb1 rfl
  refine ⟨by rw [hs1], ?_, ?_⟩
  · rw [hs1, hs2]
  · rw [hs1, hs2, hb2]
    rfl

/-- Witness for the amended C6 at a concrete fresh bucket and the two
catalogued versions. -/
theorem c6_witness :
    (set_image valid_cores_default (create_bucket [] "lab").1 "lab" "2019.1.0rc2").2 = none
    ∧ (set_image valid_cores_default
        (set_image valid_cores_default (create_bucket [] "lab").1 "lab" "2019.1.0rc2").1
        "lab" "latest").2 = none := by
  have h := c6_amended_set_image_overwrites valid_cores_default
    (create_bucket [] "lab").1 "lab" "2019.1.0rc2" "latest" 0 (fresh_bucket "lab")
    (valid_cores_default.get ⟨0, by decide⟩) (valid_cores_default.get ⟨1, by decide⟩)
    rfl rfl rfl rfl
  exact ⟨h.1, h.2.1⟩

/-- C2 counterexample: the adapter reports that the container persists
(`remove_container` returns failure), yet `remove_bucket` still nulls
the container reference and status and drops the bucket record from
the registry, returning success — the claimed RemovalFailure signal
and record retention do not happen. -/
theorem c2_counterexample_remove_ignores_adapter :
    remove_bucket dhW [bktCreatedW] "lab" = ([], none) := rfl

/-- C2 amended: for every bucket whose (refreshed) status is not
Running, `remove_bucket` invokes the adapter's removal primitive but
discards its result: the call returns success and the record is
removed from the registry unconditionally, whatever the adapter
reported (the adapter `dh` here is arbitrary, including one whose
`remove_container` reports failure). -/
theorem c2_amended_remove_drops_record_unconditionally
    (dh : DockerHelper) (bs : List Bucket) (bucket_name : String)
    (i : Nat) (b : Bucket)
    (hnd : (bs.map (fun x => x.name)).Nodup)
    (hb : get_bucket? (update_bucket_statuses dh bs) bucket_name = some (i, b))
    (hrun : b.docker.status ≠ some "running") :
    (remove_bucket dh bs bucket_name).2 = none
    ∧ ∀ x ∈ (remove_bucket dh bs bucket_name).1, x.name ≠ bucket_name := by
  have hnd0 : ((update_bucket_statuses dh bs).map (fun x => x.name)).Nodup := by
    rw [names_update_bucket_statuses]; exact hnd
  have hrunb : (b.docker.status == some "running") = false := by
    rw [beq_eq_false_iff_ne]; exact hrun
  by_cases hcond : ((b.docker.status == some "created" || b.docker.status == some "exited")
      && b.docker.container.isSome) = true
  · have hb1 : get_bucket? ((update_bucket_statuses dh bs).set i
        { b with docker := { b.docker with status := none, container := none } }) bucket_name
        = some (i, { b with docker := { b.docker with status := none, container := none } }) :=
      get_bucket?_set hb rfl
    have hr : remove_bucket dh bs bucket_name
        = (((update_bucket_statuses dh bs).set i
            { b with docker := { b.docker with status := none, container := none } }).eraseIdx i,
           none) := by
      simp only [remove_bucket, hb, hrunb, hcond]
      simp [hb1]
    refine ⟨by rw [hr], ?_⟩
    rw [hr]
    have hnd1 : (((update_bucket_statuses dh bs).set i
        { b with docker := { b.docker with status := none, container := none } }).map
          (fun x => x.name)).Nodup := by
      rw [@names_set (update_bucket_statuses dh bs) bucket_name i b
        { b with docker := { b.docker with status := none, container := none } } hb rfl]
      exact hnd0
    exact erase_names hb1 hnd1
  · have hr : remove_bucket dh bs bucket_name
        = ((update_bucket_statuses dh bs).eraseIdx i, none) := by
      simp only [remove_bucket, hb, hrunb]
      rw [if_neg hcond]
      simp only [hb]
      simp
    refine ⟨by rw [hr], ?_⟩
    rw [hr]
    exact erase_names hb hnd0

/-- Witness for the amended C2: a concrete created bucket, an adapter
reporting removal failure; the call still succeeds. -/
theorem c2_witness :
    (remove_bucket dhW [bktCreatedW] "lab").2 = none :=
  (c2_amended_remove_drops_record_unconditionally dhW [bktCreatedW] "lab" 0
    { bktCreatedW with docker := { bktCreatedW.docker with status := some "created" } }
    (by decide) rfl (by decide)).1

/-- C3: whenever the auto-allocator `get_port` returns a port, that
port is neither bound as a local port in any bucket of the registry
nor reported busy by the OS probe; it is the least such value at or
above the base 9000; any successful call in the same registry state
returns the same value (so successive results are monotonically
non-decreasing); and `add_port` with both endpoints omitted appends
the allocated value symmetrically as both local and container port. -/
theorem c3_port_allocator_least_free
    (env : Env) (bs : List Bucket) (fuel p : Nat)
    (bucket_name : String) (i : Nat) (b : Bucket) (tcp : Bool)
    (hp : get_port env bs fuel = some p) :
    env.osBusy p = false
    ∧ some p ∉ assigned_ports bs
    ∧ 9000 ≤ p
    ∧ (∀ q, 9000 ≤ q → q < p → ¬(env.osBusy q = false ∧ some q ∉ assigned_ports bs))
    ∧ (∀ fuel2 p2, get_port env bs fuel2 = some p2 → p2 = p)
    ∧ (get_bucket? bs bucket_name = some (i, b) → b.docker.status = none →
        add_port env fuel bs bucket_name none none tcp
          = (bs.set i { b with docker :=
              { b.docker with port := b.docker.port ++ [(some p, some p, tcp)] } }, none)) := by
  obtain ⟨h1, h2, h3, h4⟩ := get_port_from_spec env.osBusy (assigned_ports bs) fuel 9000 p hp
  refine ⟨h1, h2, h3, h4, fun fuel2 p2 hp2 => get_port_from_unique hp hp2, fun hb hst => ?_⟩
  simp [add_port, hb, hst, falsy, hp]

/-- Witness for C3: ports 9000 through 9002 busy on the host, 9003 and
9004 bound in the registry; the allocator returns 9005 and `add_port`
binds it symmetrically. -/
theorem c3_witness :
    envW.osBusy 9005 = false
    ∧ some 9005 ∉ assigned_ports [bktPortsW]
    ∧ 9000 ≤ 9005
    ∧ add_port envW 100 [bktPortsW] "lab" none none true
        = ([bktPortsW].set 0 { bktPortsW with docker :=
            { bktPortsW.docker with
                port := bktPortsW.docker.port ++ [(some 9005, some 9005, true)] } }, none) := by
  have h := c3_port_allocator_least_free envW [bktPortsW] 100 9005 "lab" 0 bktPortsW true rfl
  exact ⟨h.1, h.2.1, h.2.2.1, h.2.2.2.2.2 rfl rfl⟩

/-- C7: with the other `add_storage` checks satisfied (bucket not yet
started, no duplicate bindings, existing local directory, well-formed
permission), a container path equal to or a filesystem descendant of a
whitelisted prefix is accepted, while a container path that is a
sibling or an ancestor of every whitelisted prefix is rejected with
the ValidationError (`ValueError` "Invalid mount location.") and the
registry is unchanged. -/
theorem c7_whitelist_accepts_descendants_rejects_others
    (env : Env) (bs : List Bucket) (bucket_name : String)
    (i : Nat) (b : Bucket) (lp c perm : String)
    (hb : get_bucket? bs bucket_name = some (i, b))
    (hst : b.docker.status = none)
    (hld : lp ∉ b.docker.storage.map (fun x => x.1))
    (hcd : c ∉ b.docker.storage.map (fun x => x.2.1))
    (hdir : env.isDir lp = true)
    (hperm : perm ∈ ["r", "ro", "rw"]) :
    ((∃ w ∈ storage_whitelist, pathEq w c = true ∨ descendantOf c w = true) →
      (add_storage env bs bucket_name lp c perm).2 = none)
    ∧ ((∀ w ∈ storage_whitelist, siblingOf c w = true ∨ ancestorOf c w = true) →
      add_storage env bs bucket_name lp c perm
        = (bs, some (.valueError "Invalid mount location."))) := by
  constructor
  · intro hex
    have hv : container_path_valid storage_whitelist c = true := by
      simp only [container_path_valid, List.any_eq_true, Bool.or_eq_true]
      obtain ⟨w, hw, hor⟩ := hex
      exact ⟨w, hw, by simpa [descendantOf] using hor⟩
    simp [add_storage, hb, hst, hld, hcd, hdir, hv, hperm]
  · intro hall
    have hv : container_path_valid storage_whitelist c = false := by
      simp only [container_path_valid, List.any_eq_false, Bool.or_eq_true]
      intro w hw
      rcases hall w hw with hs | ha
      · simp only [siblingOf, Bool.and_eq_true, Bool.not_eq_true'] at hs
        simp [hs.1.1, hs.1.2]
      · have h1 := pathEq_false_of_pathInParents (by simpa [ancestorOf] using ha)
        have h2 := pathInParents_asymm (by simpa [ancestorOf] using ha)
        simp [h1, h2]
    simp [add_storage, hb, hst, hld, hcd, hdir, hv]

/-- Witness for C7: the descendant path under the whitelisted prefix
is accepted; the sibling path is rejected. -/
theorem c7_witness :
    (add_storage envW [fresh_bucket "lab"] "lab" "/tmp/data" "/home/jovyan/mount/data" "rw").2 = none
    ∧ add_storage envW [fresh_bucket "lab"] "lab" "/tmp/data" "/home/jovyan/work" "rw"
        = ([fresh_bucket "lab"], some (.valueError "Invalid mount location.")) := by
  refine ⟨?_, ?_⟩
  · exact (c7_whitelist_accepts_descendants_rejects_others envW [fresh_bucket "lab"] "lab"
      0 (fresh_bucket "lab") "/tmp/data" "/home/jovyan/mount/data" "rw"
      rfl rfl (by decide) (by decide) rfl (by decide)).1
      ⟨"/home/jovyan/mount", by decide, by right; decide⟩
  · exact (c7_whitelist_accepts_descendants_rejects_others envW [fresh_bucket "lab"] "lab"
      0 (fresh_bucket "lab") "/tmp/data" "/home/jovyan/work" "rw"
      rfl rfl (by decide) (by decide) rfl (by decide)).2
      (by intro w hw; left; rw [List.mem_singleton.mp hw]; decide)

/-- C8: `start_jupyter` on a running bucket is idempotent while a
session runs and produces well-formed tokens.  The generated token
(`'%048x' % random.randrange(16**48)`, a 192-bit value) renders as
exactly 48 hexadecimal characters.  If the first pid probe finds a
session, the previously recorded `(port, token)` descriptor is
returned and the registry is unchanged.  Otherwise the service is
launched and the pid probe is re-run: if it does not find the process,
the call fails and nothing is persisted; only if it finds the process
are `(token, local_port)` persisted on the bucket and returned. -/
theorem c8_start_session_idempotent_and_token
    (dh : DockerHelper) (rand : Nat) (out1 out2 sout : String) (scode : Option Int)
    (bs : List Bucket) (bucket_name : String) (i : Nat) (b : Bucket)
    (lp cp : Option Nat)
    (hg : ∀ x, dh.get_container_status x = x.docker.status)
    (hb : get_bucket? bs bucket_name = some (i, b))
    (hrun : b.docker.status = some "running")
    (hrand : rand < 16 ^ 48)
    (hlp : falsy lp = false)
    (hscode : scode = none) :
    ((tokenHex rand).length = 48 ∧ ∀ c ∈ (tokenHex rand).toList, isHexDigit c = true)
    ∧ (∀ pid, scan_pid (splitChar '\n' out1) = .ok (some pid) →
        start_jupyter dh rand (some 0, out1) (scode, sout) (some 0, out2) bs bucket_name lp cp
          = (bs, none, some (b.docker.jupyter.port, b.docker.jupyter.token)))
    ∧ (scan_pid (splitChar '\n' out1) = .ok none →
        scan_pid (splitChar '\n' out2) = .ok none →
        start_jupyter dh rand (some 0, out1) (scode, sout) (some 0, out2) bs bucket_name lp cp
          = (bs, some (.runtimeError "Failed to start jupyter server!"), none))
    ∧ (∀ pid2, scan_pid (splitChar '\n' out1) = .ok none →
        scan_pid (splitChar '\n' out2) = .ok (some pid2) →
        start_jupyter dh rand (some 0, out1) (scode, sout) (some 0, out2) bs bucket_name lp cp
          = (bs.set i { b with docker := { b.docker with jupyter :=
              { token := some (tokenHex rand), port := lp } } },
             none, some (lp, some (tokenHex rand)))) := by
  subst hscode
  have hget : bs.get? i = some b := get_bucket?_getElem? hb
  have hpid1 : get_jupyter_pid_r dh (some 0, out1) bs bucket_name
      = (bs, scan_pid (splitChar '\n' out1)) := get_jupyter_pid_r_running hg hb hrun
  have hpid2 : get_jupyter_pid_r dh (some 0, out2) bs bucket_name
      = (bs, scan_pid (splitChar '\n' out2)) := get_jupyter_pid_r_running hg hb hrun
  have hexec : execute_command_r dh (none, sout) bs bucket_name
      (mkJupyterCommand cp (tokenHex rand)) true
      = (bs, .ok (none, sout)) := by
    rw [execute_command_r_running hg hb hrun]
    simp
  refine ⟨⟨tokenHex_length hrand, tokenHex_all_hex rand⟩, ?_, ?_, ?_⟩
  · intro pid h1
    simp only [start_jupyter, hb, hpid1, h1, hget, Option.getD_some]
  · intro h1 h2
    simp only [start_jupyter, hb, hpid1, h1, hget, Option.getD_some, hlp,
      Bool.false_and, if_neg (by simp : ¬(false = true)), hexec,
      update_bucket_statuses_id bs hg, hpid2, h2]
  · intro pid2 h1 h2
    simp only [start_jupyter, hb, hpid1, h1, hget, Option.getD_some, hlp,
      Bool.false_and, if_neg (by simp : ¬(false = true)), hexec,
      update_bucket_statuses_id bs hg, hpid2, h2]

/-- Witness for C8: a running bucket with explicit ports; the first
probe sees no session, the launch succeeds, the second probe sees the
process, so the token is persisted and returned. -/
theorem c8_witness :
    (tokenHex 255).length = 48
    ∧ start_jupyter dhW 255 (some 0, "") (none, "") (some 0, psLineW)
        [bktRunW] "lab" (some 9000) (some 9000)
      = ([bktRunW].set 0 { bktRunW with docker := { bktRunW.docker with jupyter :=
          { token := some (tokenHex 255), port := some 9000 } } },
         none, some (some 9000, some (tokenHex 255))) := by
  have h := c8_start_session_idempotent_and_token dhW 255 "" psLineW "" none
    [bktRunW] "lab" 0 bktRunW (some 9000) (some 9000)
    (fun _ => rfl) rfl rfl (by norm_num) rfl rfl
  exact ⟨h.1.1, h.2.2.2 "42" rfl rfl⟩

/-- C10: on a running bucket whose port list is empty, `start_jupyter`
with both ports omitted and no session found by the first probe fails
with the host language's `IndexError` when it reads the bucket's first
port binding, before the service launch command is ever issued (the
launch and second-probe responses `srun`, `ps2` are arbitrary and
unused), and the registry is unchanged. -/
theorem c10_start_session_empty_ports_index_error
    (dh : DockerHelper) (rand : Nat) (out1 : String)
    (srun ps2 : Option Int × String)
    (bs : List Bucket) (bucket_name : String) (i : Nat) (b : Bucket)
    (hg : ∀ x, dh.get_container_status x = x.docker.status)
    (hb : get_bucket? bs bucket_name = some (i, b))
    (hrun : b.docker.status = some "running")
    (hports : b.docker.port = [])
    (h1 : scan_pid (splitChar '\n' out1) = .ok none) :
    start_jupyter dh rand (some 0, out1) srun ps2 bs bucket_name none none
      = (bs, some (.indexError "list index out of range"), none) := by
  have hget : bs.get? i = some b := get_bucket?_getElem? hb
  have hpid1 : get_jupyter_pid_r dh (some 0, out1) bs bucket_name
      = (bs, scan_pid (splitChar '\n' out1)) := get_jupyter_pid_r_running hg hb hrun
  simp only [start_jupyter, hb, hpid1, h1, hget, Option.getD_some]
  simp [falsy, hports]

/-- Witness for C10 at a concrete running bucket with no ports. -/
theorem c10_witness :
    start_jupyter dhW 255 (some 0, "") (none, "") (some 0, "")
        [bktRunW] "lab" none none
      = ([bktRunW], some (.indexError "list index out of range"), none) :=
  c10_start_session_empty_ports_index_error dhW 255 "" (none, "") (some 0, "")
    [bktRunW] "lab" 0 bktRunW (fun _ => rfl) rfl rfl rfl rfl

/-- C1 counterexample: a bucket whose mount permission carries the
SELinux relabel marker (`"ro,Z"`, produced by `add_storage` on an
SELinux-enforcing host) does not survive the round trip: exporting it
and importing the bundle under a fresh name into an empty registry
fails with `ValueError` — `add_storage` at import time rejects the
manifest's permission string — and the imported bucket's storage list
stays empty instead of reproducing the `(container_path, permission)`
pair of the source. -/
theorem c1_counterexample_relabel_marker_breaks_round_trip :
    (import_bucket envW "img" "/tmp/imp" (export_bucket srcZ []) [] "lab2").2
      = some (.valueError "Invalid permissions. Valid options are r and rw.")
    ∧ (get_bucket? (import_bucket envW "img" "/tmp/imp" (export_bucket srcZ []) [] "lab2").1
        "lab2").map (fun x => x.2.docker.storage) = some []
    ∧ storage_pairs srcZ = [("/home/jovyan/mount/data", "ro,Z")] :=
  ⟨rfl, rfl, rfl⟩

/-- C1 amended: the round trip holds for buckets without the SELinux
relabel marker, on an importing host without SELinux, when the mounts
have pairwise distinct local base names and distinct, whitelisted
container paths that re-extract to existing directories: export (with
no excluded mounts) followed by import under a fresh name into an
empty registry yields exactly one bucket reproducing, for every mount
and in the same order, the identical `(container_path, permission)`
pair, with no ports and no container. -/
theorem c1_amended_round_trip
    (env : Env) (image_id bucket_dir bucket_name : String) (b : Bucket)
    (hsel : env.selinux = false)
    (hperm : ∀ m ∈ b.docker.storage, m.2.2 = "ro" ∨ m.2.2 = "rw")
    (hwl : ∀ m ∈ b.docker.storage, container_path_valid storage_whitelist m.2.1 = true)
    (hdir : ∀ m ∈ b.docker.storage, env.isDir (bucket_dir ++ "/" ++ basename m.1) = true)
    (hbn : (b.docker.storage.map (fun m => basename m.1)).Nodup)
    (hcn : (b.docker.storage.map (fun m => m.2.1)).Nodup) :
    import_bucket env image_id bucket_dir (export_bucket b []) [] bucket_name
      = ([imported_bucket image_id bucket_dir bucket_name b], none)
    ∧ storage_pairs (imported_bucket image_id bucket_dir bucket_name b) = storage_pairs b
    ∧ (imported_bucket image_id bucket_dir bucket_name b).docker.port = []
    ∧ (imported_bucket image_id bucket_dir bucket_name b).docker.container = none := by
  refine ⟨?_, ?_, rfl, rfl⟩
  · have hcreate : create_bucket [] bucket_name = ([fresh_bucket bucket_name], none) := by
      simp [create_bucket]
    have hfind : get_bucket? [fresh_bucket bucket_name] bucket_name
        = some (0, fresh_bucket bucket_name) := by
      simp [get_bucket?, fresh_bucket]
    have h1 : import_bucket env image_id bucket_dir (export_bucket b []) [] bucket_name
        = import_mounts env bucket_dir bucket_name (export_bucket b []).mounts
            [import_base_bucket image_id bucket_name] := by
      simp only [import_bucket, hcreate, hfind]
      rfl
    have hnr : (((export_bucket b []).mounts).map (fun m => m.arcRoot)).Nodup := by
      rw [export_bucket_mounts_no_exclusion, List.map_map]
      exact hbn
    have hnc : (((export_bucket b []).mounts).map (fun m => m.container_path)).Nodup := by
      rw [export_bucket_mounts_no_exclusion, List.map_map]
      exact hcn
    have hspec := import_mounts_spec env bucket_dir bucket_name hsel
      ((export_bucket b []).mounts) (import_base_bucket image_id bucket_name)
      rfl rfl
      (by
        rw [export_bucket_mounts_no_exclusion]
        intro m hm
        obtain ⟨s, hs, rfl⟩ := List.mem_map.mp hm
        exact hperm s hs)
      (by
        rw [export_bucket_mounts_no_exclusion]
        intro m hm
        obtain ⟨s, hs, rfl⟩ := List.mem_map.mp hm
        exact hwl s hs)
      (by
        rw [export_bucket_mounts_no_exclusion]
        intro m hm
        obtain ⟨s, hs, rfl⟩ := List.mem_map.mp hm
        exact hdir s hs)
      hnr hnc
      (by intro m _; simp [import_base_bucket])
      (by intro m _; simp [import_base_bucket])
    rw [h1, hspec]
    have hms : ((export_bucket b []).mounts).map (mount_entry bucket_dir)
        = b.docker.storage.map
            (fun m => (bucket_dir ++ "/" ++ basename m.1, m.2.1, m.2.2)) := by
      rw [export_bucket_mounts_no_exclusion, List.map_map]
      rfl
    rw [hms]
    rfl
  · simp only [storage_pairs, imported_bucket, List.map_map]
    rfl

/-- Witness for the amended C1: the two-mount bucket `srcGood` round
trips through a bundle into an empty registry, reproducing both
`(container_path, permission)` pairs in order. -/
theorem c1_witness :
    import_bucket envW "img" "/tmp/imp" (export_bucket srcGood []) [] "lab2"
      = ([imported_bucket "img" "/tmp/imp" "lab2" srcGood], none)
    ∧ storage_pairs (imported_bucket "img" "/tmp/imp" "lab2" srcGood) = storage_pairs srcGood := by
  have h := c1_amended_round_trip envW "img" "/tmp/imp" "lab2" srcGood
    rfl (by decide) (by decide) (fun _ _ => rfl) (by decide) (by decide)
  exact ⟨h.1, h.2.1⟩

end ResenSpec
